import Mathlib

/-!
# Business-Assistant: verification of the spec against the source

A shallow embedding of the core of the Business-Assistant repository
(`src/tools/permissions.py`, `src/tools/crm.py`, `src/tools/ops.py`,
`src/tools/projects.py`, `src/context/selectors.py`,
`src/orchestrator/router.py`) and proofs settling the spec's claims.

Modelling conventions:
* Python dict records (clients, invoices, tasks, expenses) are association
  lists `Rec := List (String × Val)`; `dget` is `dict.get` with default and
  `recItem` is `dict[key]` (raising `KeyError` when absent).
* Python exceptions are the inductive `PyErr`; fallible code returns
  `Except PyErr α`.  A function that mutates the workspace additionally
  returns the workspace handle, so the state after the call is explicit.
* Money amounts are `ℚ` (an exact abstraction of the source's floats);
  Python `round(x, 2)` is `pyRound2`, rounding half-to-even at 2 decimals.
  Concrete inputs used in the theorems are chosen away from representation
  ties so the float/rational distinction does not matter.
* ISO date strings are modelled as a `Date` structure (year/month/day);
  `date.fromisoformat` is extraction of that structure and comparison /
  `timedelta` arithmetic go through the proleptic-Gregorian ordinal
  `Date.toOrd`, the same ordinal `datetime.date.toordinal` computes.
-/

namespace BizAssist

/-- A Python value as stored in the workspace records. -/
inductive Val where
  | s (v : String)
  | i (v : Int)
  | q (v : ℚ)
  | b (v : Bool)
  | d (year : Int) (month : Int) (day : Int)
  | none
  deriving Repr, DecidableEq

/-- A Python dict record: an insertion-ordered association list. -/
abbrev Rec : Type := List (String × Val)

/-- The Python exceptions raised by this codebase (`syntaxError` stands
for a compile-time `SyntaxError` that aborts a module import). -/
inductive PyErr where
  | permissionError (msg : String)
  | valueError (msg : String)
  | runtimeError (msg : String)
  | nameError (msg : String)
  | attributeError (msg : String)
  | keyError (key : String)
  | syntaxError (msg : String)
  deriving Repr, DecidableEq

/-- Decidable equality of `Except` results, for evaluating the embedded
functions on concrete inputs. -/
instance instDecEqExcept {e a : Type} [DecidableEq e] [DecidableEq a] :
    DecidableEq (Except e a) := fun x y =>
  match x, y with
  | Except.ok v, Except.ok w =>
    if h : v = w then isTrue (by rw [h]) else isFalse (by simp [h])
  | Except.ok _, Except.error _ => isFalse (by simp)
  | Except.error _, Except.ok _ => isFalse (by simp)
  | Except.error v, Except.error w =>
    if h : v = w then isTrue (by rw [h]) else isFalse (by simp [h])

/-- `dict.get(k, default)`. -/
def dget (r : Rec) (k : String) (dflt : Val) : Val :=
  match List.find? (fun p => p.1 = k) r with
  | some p => p.2
  | Option.none => dflt

/-- `dict[k]`: raises `KeyError` when the key is absent. -/
def recItem (r : Rec) (k : String) : Except PyErr Val :=
  match List.find? (fun p => p.1 = k) r with
  | some p => Except.ok p.2
  | Option.none => Except.error (PyErr.keyError k)

/-- `dict[k] = v`: overwrite in place when present, else append (Python
insertion-order semantics). -/
def dset (r : Rec) (k : String) (v : Val) : Rec :=
  if (List.find? (fun p => p.1 = k) r).isSome then
    List.map (fun p => if p.1 = k then (k, v) else p) r
  else
    r ++ [(k, v)]

/-- Python `float(x)` applied to a stored numeric value (non-numeric values
do not occur at the call sites we embed; they coerce to 0 here). -/
def toQ : Val → ℚ
  | Val.i n => (n : ℚ)
  | Val.q v => v
  | _ => 0

/-- Python `int(x)` applied to a stored numeric value. -/
def toInt : Val → Int
  | Val.i n => n
  | Val.q v => v.num / (v.den : Int)
  | _ => 0

/-- The string payload of a stored value (`""` for non-strings). -/
def valToStr : Val → String
  | Val.s v => v
  | _ => ""

-- ------------------------------------------------------------------
-- Dates (proleptic Gregorian, matching `datetime.date`)
-- ------------------------------------------------------------------

/-- A calendar date, the model of a Python `datetime.date` / ISO string. -/
structure Date where
  year : Int
  month : Int
  day : Int
  deriving Repr, DecidableEq

/-- Gregorian leap year, as `calendar.isleap`. -/
def isLeap (y : Int) : Bool :=
  (y.emod 4 = 0 && y.emod 100 ≠ 0) || y.emod 400 = 0

/-- Days in the year before the first day of month `m` (non-leap year). -/
def daysBeforeMonth (m : Int) : Int :=
  if m = 1 then 0 else if m = 2 then 31 else if m = 3 then 59
  else if m = 4 then 90 else if m = 5 then 120 else if m = 6 then 151
  else if m = 7 then 181 else if m = 8 then 212 else if m = 9 then 243
  else if m = 10 then 273 else if m = 11 then 304 else 334

/-- `datetime.date.toordinal`: day 1 is 0001-01-01.  Dates compare and add
`timedelta(days=n)` through this ordinal. -/
def Date.toOrd (dt : Date) : Int :=
  let y := dt.year - 1
  365 * y + y.fdiv 4 - y.fdiv 100 + y.fdiv 400
    + daysBeforeMonth dt.month
    + (if 2 < dt.month && isLeap dt.year then 1 else 0)
    + dt.day

/-- Extract the `Date` of a stored ISO date value (`date.fromisoformat`);
a non-date value raises `ValueError` as the Python parser would. -/
def valToDate : Val → Except PyErr Date
  | Val.d y m dd => Except.ok ⟨y, m, dd⟩
  | _ => Except.error (PyErr.valueError "Invalid isoformat string")

-- ------------------------------------------------------------------
-- Rounding (Python `round(x, 2)`)
-- ------------------------------------------------------------------

/-- Python `round(x, 2)`: round half to even at two decimal places
(banker's rounding), on the exact-rational abstraction of floats. -/
def pyRound2 (x : ℚ) : ℚ :=
  let y := x * 100
  let f : Int := ⌊y⌋
  let r : ℚ := y - (f : ℚ)
  let n : Int :=
    if r < 1 / 2 then f
    else if 1 / 2 < r then f + 1
    else if f % 2 = 0 then f else f + 1
  (n : ℚ) / 100

/-- Python `str.strip()`: drop leading and trailing ASCII whitespace. -/
def pyStrip (s : String) : String :=
  let ws := fun c : Char => c = ' ' || c = '\t' || c = '\n' || c = '\r'
  String.mk (((s.data.dropWhile ws).reverse.dropWhile ws).reverse)

/-- Python `str.lower()` for the ASCII strings in play. -/
def pyLower (s : String) : String :=
  String.mk (s.data.map (fun c =>
    if 'A' ≤ c && c ≤ 'Z' then Char.ofNat (c.toNat + 32) else c))

-- ------------------------------------------------------------------
-- src/tools/permissions.py
-- ------------------------------------------------------------------

/-- `ACTION_MATRIX` (permissions.py, lines 21–28): action → permitted roles. -/
def actionMatrix (action : String) : Option (List String) :=
  if action = "create_invoice" then some ["owner", "manager"]
  else if action = "send_reminder" then some ["owner", "manager"]
  else if action = "record_payment" then some ["owner", "manager"]
  else if action = "record_expense" then some ["owner", "manager"]
  else if action = "create_task" then some ["owner", "manager", "member"]
  else if action = "move_task" then some ["owner", "manager", "member"]
  else Option.none

/-- `has_permission(user_role, action)` (permissions.py, lines 31–46):
`ACTION_MATRIX.get(action, set())` then membership test.  Total: an unknown
action yields the empty set, hence `false`, and no error is raised. -/
def hasPermission (userRole : String) (action : String) : Bool :=
  let allowed := (actionMatrix action).getD []
  List.contains allowed userRole

-- ------------------------------------------------------------------
-- src/context/loader.py — the Workspace
-- ------------------------------------------------------------------

/-- `Workspace` (loader.py, lines 14–24): the in-memory mutable dataset. -/
structure Workspace where
  users : List Rec
  clients : List Rec
  projects : List Rec
  tasks : List Rec
  invoices : List Rec
  payments : List Rec
  expenses : List Rec
  deriving Repr, DecidableEq

/-- A workspace with all collections empty. -/
def emptyWs : Workspace := ⟨[], [], [], [], [], [], []⟩

-- ------------------------------------------------------------------
-- src/context/selectors.py
-- ------------------------------------------------------------------

/-- `get_client_by_id` (selectors.py, lines 25–27): first client whose
`"id"` field equals `client_id` (a record lacking `"id"` raises `KeyError`
at `c["id"]`; workspaces in this development always carry ids). -/
def getClientById (ws : Workspace) (clientId : String) : Option Rec :=
  List.find? (fun c => dget c "id" Val.none = Val.s clientId) ws.clients

/-- Loop body of `get_overdue_invoices` (selectors.py, lines 39–44) over the
invoice list.  Note the source reads `inv.get("due_dats", 14)` — the key is
misspelled (the data model stores `due_days`), so the default 14 is always
used.  `inv["date"]` is a mandatory lookup (`KeyError` when absent). -/
def overdueScan (today : Date) : List Rec → Except PyErr (List Rec)
  | [] => Except.ok []
  | inv :: rest => do
    let dv ← recItem inv "date"
    let invDate ← valToDate dv
    let dueBy := invDate.toOrd + toInt (dget inv "due_dats" (Val.i 14))
    let tail ← overdueScan today rest
    if dueBy < today.toOrd && dget inv "status" Val.none ≠ Val.s "paid" then
      pure (inv :: tail)
    else
      pure tail

/-- `get_overdue_invoices(ws, today)` (selectors.py, lines 33–46):
"date + due_days < today and status != paid" per its docstring, but the
body looks up the nonexistent key `"due_dats"`. -/
def getOverdueInvoices (ws : Workspace) (today : Date) : Except PyErr (List Rec) :=
  overdueScan today ws.invoices

-- ------------------------------------------------------------------
-- src/tools/crm.py — session store and helpers
-- ------------------------------------------------------------------

/-- Compiling `src/tools/crm.py`: the module-level comment string at
lines 40–41 ends in four quote characters (`...the seed.""""`); Python
terminates the triple-quoted string at the first three, and the remaining
quote opens an unterminated string literal — a module-fatal
`SyntaxError`.  The module can therefore never be imported (and the
`from tools import crm, projects, ops` at router.py line 16 fails with
it), so none of its functions ever exists at runtime.  The embeddings
below model the function *text* of crm.py. -/
def importCrm : Except PyErr Unit :=
  Except.error (PyErr.syntaxError "unterminated string literal (detected at line 41)")

/-- `crm.attach_workspace(ws)` (crm.py, lines 45–59): the body is
`global _WS; _WS = _WS` — it assigns the module handle to itself and
discards the argument, so the handle (the function's second parameter
here, returned updated) is left unchanged. -/
def crmAttachWorkspace (_ws : Workspace) (handle : Option Workspace) : Option Workspace :=
  handle

/-- The message of the `RuntimeError` raised by `crm._require_ws`
(crm.py, lines 61–69) when no workspace is attached. -/
def crmNotAttachedMsg : String :=
  "Workspace not attached. Call crm.attach_workspace(ws) first."

/-- Longest run of digit characters at the end of a string: the match of
the regex `(\d+)$` used by `_next_invoice_suffix`. -/
def trailingDigits (s : String) : List Char :=
  (List.takeWhile Char.isDigit s.data.reverse).reverse

/-- Numeric value of a digit string (`int(...)` on the regex group). -/
def digitsToInt (l : List Char) : Int :=
  List.foldl (fun a c => 10 * a + ((c.toNat : Int) - 48)) 0 l

/-- One step of the `for n in existing_numbers` loop of
`_next_invoice_suffix` (crm.py, lines 88–91): `n.replace("-", "")` strips
every dash, then `re.search(r"(\d+)$", ...)` takes the trailing digit run,
so for `"INV-2025-081"` the matched integer is `2025081`, not `81`. -/
def suffixStep (best : Int) (n : String) : Int :=
  let stripped := List.filter (fun c => c ≠ '-') n.data
  let ds := (List.takeWhile Char.isDigit stripped.reverse).reverse
  if ds.isEmpty then best else max best (digitsToInt ds)

/-- `_next_invoice_suffix(existing_numbers)` (crm.py, lines 78–93):
`best + 1 if best else 81`. -/
def nextInvoiceSuffix (existingNumbers : List String) : Int :=
  let best := List.foldl suffixStep 0 existingNumbers
  if best ≠ 0 then best + 1 else 81

/-- Python `format(n, "03d")` for the nonnegative suffixes in play:
zero-pad the decimal representation to width 3. -/
def pad3 (n : Int) : String :=
  let s := toString n
  if 3 ≤ s.length then s else String.mk (List.replicate (3 - s.length) '0') ++ s

/-- `_format_invoice_number(today, next_suffix)` (crm.py, lines 95–98):
`f"INV-{today.year}-{next_suffix:03d}"`. -/
def formatInvoiceNumber (today : Date) (nextSuffix : Int) : String :=
  "INV-" ++ toString today.year ++ "-" ++ pad3 nextSuffix

/-- The totals dict returned by `_compute_totals`. -/
structure Totals where
  subtotal : ℚ
  vat : ℚ
  total : ℚ
  deriving Repr, DecidableEq

/-- `_compute_totals(line_items, vat_rate)` (crm.py, lines 100–113):
`subtotal = sum(float(li.get("qty", 0)) * float(li.get("unit_price", 0.0)))`,
`vat = round(subtotal * vat_rate, 2)`, `total = round(subtotal + vat, 2)`,
and the returned dict stores `round(subtotal, 2)` — the *rounded* subtotal,
while `vat` and `total` are computed from the unrounded sum. -/
def computeTotals (lineItems : List Rec) (vatRate : ℚ) : Totals :=
  let subtotal := (List.map
    (fun li => toQ (dget li "qty" (Val.i 0)) * toQ (dget li "unit_price" (Val.q 0)))
    lineItems).sum
  let vat := pyRound2 (subtotal * vatRate)
  let total := pyRound2 (subtotal + vat)
  ⟨pyRound2 subtotal, vat, total⟩

-- ------------------------------------------------------------------
-- src/tools/crm.py — public API
-- ------------------------------------------------------------------

/-- `find_client` (crm.py, lines 117–203): `ws = _require_ws()` is its first
statement.  The fuzzy ranking that follows calls the external rapidfuzz
library, so the attached-workspace behaviour is abstracted as `body`. -/
def crmFindClient (body : Workspace → String → Int → Except PyErr (List Rec))
    (handle : Option Workspace) (query : String) (topK : Int) :
    Except PyErr (List Rec) :=
  match handle with
  | Option.none => Except.error (PyErr.runtimeError crmNotAttachedMsg)
  | some ws => body ws query topK

/-- `chase_late_payers` (crm.py, lines 295–361): the `send_reminder`
permission check comes first, then `_require_ws()`; the reminder drafting
over the attached workspace is abstracted as `body` (its overdue selection
is `getOverdueInvoices`, settled separately). -/
def crmChaseLatePayers (body : Workspace → Date → Except PyErr Val)
    (handle : Option Workspace) (userRole : String) (today : Date) :
    Except PyErr Val :=
  if !hasPermission userRole "send_reminder" then
    Except.error (PyErr.permissionError "You do not have permission to send reminders.")
  else
    match handle with
    | Option.none => Except.error (PyErr.runtimeError crmNotAttachedMsg)
    | some ws => body ws today

/-- The f-string fragment `f"inv_{invoice_data.year}_{next_suffix:03.d}"` at
crm.py line 266: `03.d` is not a valid format specification for type `d`
(the `.` must be followed by precision digits), so evaluating the f-string
raises `ValueError` at runtime, before the invoice dict is built. -/
def formatSpec03dotd : Except PyErr (Int → String) :=
  Except.error (PyErr.valueError "Format specifier missing precision")

/-- The UI summary string of `create_invoice` (crm.py, lines 287–291).
Presentation only (spec §1 treats currency formatting as plumbing) and
unreachable — `create_invoice` raises at line 266 first — so
`config.format_money` is abstracted into plain number printing. -/
def invoiceSummary (number : String) (client : Rec) (subtotal total : ℚ)
    (currency : String) (dueDays : Int) : String :=
  "Draft invoice " ++ number ++ " for " ++ valToStr (dget client "name" Val.none)
    ++ ": " ++ toString subtotal ++ " + VAT = " ++ toString total
    ++ " " ++ currency ++ " (due in " ++ toString dueDays ++ " days)"

/-- `create_invoice` (crm.py, lines 205–293), in source statement order:
RBAC check → `_require_ws` → client lookup (`ValueError` when absent) →
currency/VAT defaults from the client → invoice numbering → totals →
the `inv_id` f-string, whose invalid `03.d` spec raises `ValueError` —
so the append at line 284 is never reached.  The result pairs the
returned value with the workspace handle after the call.  (The stored
`"line_items"` dict entry is elided: `Val` does not nest record lists,
no claim reads it back, and the branch storing it is unreachable.) -/
def createInvoice (handle : Option Workspace) (userRole clientId currency : String)
    (vatRate : Option ℚ) (lineItems : List Rec) (dueDays : Int) (notes : Option String)
    (invoiceDate : Option Date) (today : Date) :
    Except PyErr (Rec × String) × Option Workspace :=
  if !hasPermission userRole "create_invoice" then
    (Except.error (PyErr.permissionError "You do not have permission to create invoices."), handle)
  else
    match handle with
    | Option.none => (Except.error (PyErr.runtimeError crmNotAttachedMsg), Option.none)
    | some ws =>
      match getClientById ws clientId with
      | Option.none =>
          (Except.error (PyErr.valueError ("client '" ++ clientId ++ "' not found.")), some ws)
      | some client =>
        let currency := if currency = "" then valToStr (dget client "currency" (Val.s "USD")) else currency
        let vatRate := match vatRate with
          | some v => v
          | Option.none => toQ (dget client "default_vat" (Val.q 0))
        let invoiceData := invoiceDate.getD today
        let existingNumbers := List.filter (fun n => n ≠ "")
          (List.map (fun inv => valToStr (dget inv "number" (Val.s ""))) ws.invoices)
        let nextSuffix := nextInvoiceSuffix existingNumbers
        let number := formatInvoiceNumber invoiceData nextSuffix
        let totals := computeTotals lineItems vatRate
        match formatSpec03dotd with
        | Except.error e => (Except.error e, some ws)
        | Except.ok fmt =>
          let invId := "inv_" ++ toString invoiceData.year ++ "_" ++ fmt nextSuffix
          let invoice : Rec :=
            [("id", Val.s invId), ("client_id", Val.s clientId), ("number", Val.s number),
             ("date", Val.d invoiceData.year invoiceData.month invoiceData.day),
             ("due_days", Val.i dueDays), ("currency", Val.s currency),
             ("vat_rate", Val.q vatRate), ("status", Val.s "draft"),
             ("subtotal", Val.q totals.subtotal), ("vat", Val.q totals.vat),
             ("total", Val.q totals.total)]
          let invoice := match notes with
            | some n => invoice ++ [("notes", Val.s n)]
            | Option.none => invoice
          let ws2 := { ws with invoices := ws.invoices ++ [invoice] }
          (Except.ok (invoice, invoiceSummary number client totals.subtotal totals.total currency dueDays),
           some ws2)

-- ------------------------------------------------------------------
-- src/tools/ops.py
-- ------------------------------------------------------------------

/-- Compiling `src/tools/ops.py`: line 202 is the bare fragment
`start and end_date:` — a module-fatal `SyntaxError`.  The module can
therefore never be imported, so none of its functions ever exists at
runtime.  The embeddings below model the function *text* of ops.py. -/
def importOps : Except PyErr Unit :=
  Except.error (PyErr.syntaxError "invalid syntax (line 202)")

/-- `ops.attach_workspace(ws)` (ops.py, lines 29–35): the body is
`global _WS` followed by the bare expression statement `_WS` — it evaluates
the handle and never assigns it, so the handle is left unchanged. -/
def opsAttachWorkspace (_ws : Workspace) (handle : Option Workspace) : Option Workspace :=
  handle

/-- The message of the `RuntimeError` raised by `ops._require_ws`
(ops.py, lines 37–43) when no workspace is attached. -/
def opsNotAttachedMsg : String :=
  "Workspace not attached. Call ops.attach_workspace(ws) first."

/-- `_coerce_currency(ccy)` (ops.py, lines 75–85): membership in the
`Currency` enum values, `ValueError` otherwise (error text as in source,
typo included, with `sorted(allowed)` rendered). -/
def coerceCurrency (ccy : String) : Except PyErr String :=
  if ccy = "USD" || ccy = "GBP" || ccy = "EUR" then Except.ok ccy
  else Except.error (PyErr.valueError
    ("Unsupported currecnt '" ++ ccy ++ "'. Use one of ['EUR', 'GBP', 'USD']."))

/-- `_next_expenses_id(ws)` (ops.py, lines 47–62): max over all digits of
each expense id, plus one, prefixed `ex`. -/
def nextExpensesId (ws : Workspace) : String :=
  let best := List.foldl
    (fun best e =>
      let ds := List.filter Char.isDigit (valToStr (dget e "id" (Val.s ""))).data
      max best (digitsToInt ds))
    0 ws.expenses
  "ex" ++ toString (best + 1)

/-- The call `_next_expense_id(ws)` at ops.py line 137: the module defines
`_next_expenses_id` (line 47) but no `_next_expense_id`, so the name lookup
fails and every call that reaches the expense-dict construction raises
`NameError` — before `ws.expenses.append` at line 147. -/
def nextExpenseIdCall : Except PyErr (Workspace → String) :=
  Except.error (PyErr.nameError "name '_next_expense_id' is not defined")

/-- `Optional[str]`-style field: `None` maps to `Val.none`. -/
def optS : Option String → Val
  | some v => Val.s v
  | Option.none => Val.none

/-- Persona-toned expense summary (ops.py, lines 149–156).  Presentation
only and unreachable (the `NameError` above fires first); the
`config.format_money` string is abstracted into plain number printing. -/
def expenseSummary (persona : Option String) (amount : ℚ) (ccy desc : String) : String :=
  let money := toString amount ++ " " ++ ccy
  if persona = some "Intern" then
    "Logged that expense—" ++ money ++ " for “" ++ desc ++ "”. I love tidy books!"
  else if persona = some "Accountant" then
    "Expense recorded: " ++ money ++ " — " ++ desc ++ "."
  else
    "Recorded " ++ money ++ " for “" ++ desc ++ "”."

/-- `record_expenses` (ops.py, lines 89–158), in source statement order:
RBAC check → `_require_ws` → `_coerce_currency` → positive-amount check →
date default → the misspelled `_next_expense_id` call (`NameError`) →
(unreachably) build the expense dict, append it and return the summary. -/
def recordExpenses (handle : Option Workspace) (userRole : String) (amount : ℚ)
    (currency description : String) (dateIso : Option Date) (category : Option String)
    (projectId clientId : Option String) (persona : Option String) (today : Date) :
    Except PyErr (Rec × String) × Option Workspace :=
  if !hasPermission userRole "record_expense" then
    (Except.error (PyErr.permissionError "You do not have permission to record expenses."), handle)
  else
    match handle with
    | Option.none => (Except.error (PyErr.runtimeError opsNotAttachedMsg), Option.none)
    | some ws =>
      match coerceCurrency currency with
      | Except.error e => (Except.error e, some ws)
      | Except.ok ccy =>
        if amount ≤ 0 then
          (Except.error (PyErr.valueError "Amount must be positive."), some ws)
        else
          let d := dateIso.getD today
          match nextExpenseIdCall with
          | Except.error e => (Except.error e, some ws)
          | Except.ok mkId =>
            let exp : Rec :=
              [("id", Val.s (mkId ws)), ("project_id", optS projectId),
               ("client_id", optS clientId), ("description", Val.s (pyStrip description)),
               ("amount", Val.q amount), ("currency", Val.s ccy),
               ("date", Val.d d.year d.month d.day), ("category", optS category)]
            let ws2 := { ws with expenses := ws.expenses ++ [exp] }
            (Except.ok (exp, expenseSummary persona amount ccy (pyStrip description)), some ws2)

-- `weekly_summary` (ops.py, lines 160–274) is not embedded: its body
-- contains the module-fatal syntax error recorded in `importOps`, so the
-- function has no runnable semantics — not even its `_require_ws` guard,
-- since a function whose body does not parse never runs its first
-- statement.  The dispatch chain's reference to it is modelled by the
-- `ToolFn.opsWeeklySummary` tag alone.

-- ------------------------------------------------------------------
-- src/tools/projects.py
-- ------------------------------------------------------------------

/-- `projects.attach_workspace(ws)` (projects.py, lines 37–44): this one is
correct — `_WS = ws` stores the argument. -/
def projectsAttachWorkspace (ws : Workspace) (_handle : Option Workspace) : Option Workspace :=
  some ws

/-- The message of the `RuntimeError` raised by `projects._require_ws`
(projects.py, lines 46–52). -/
def projectsNotAttachedMsg : String :=
  "Workspace not attached. Call projects.attach_workspace(ws) first."

/-- `_ensure_status(status)` (projects.py, lines 58–65): strip + lowercase,
then membership in `{"todo", "doing", "done"}`, `ValueError` otherwise. -/
def ensureStatus (status : String) : Except PyErr String :=
  let s := pyLower (pyStrip status)
  if s = "todo" || s = "doing" || s = "done" then Except.ok s
  else Except.error (PyErr.valueError
    ("Invalid status '" ++ status ++ "'. Use one of ['doing', 'done', 'todo']."))

/-- The pool comprehension of `_resolve_task_by_title` (projects.py,
line 91) when a project id is given: `t["project_id"]` is a mandatory
lookup (`KeyError` when absent). -/
def poolScan (pid : String) : List Rec → Except PyErr (List Rec)
  | [] => Except.ok []
  | t :: ts => do
    let v ← recItem t "project_id"
    let rest ← poolScan pid ts
    if v = Val.s pid then pure (t :: rest) else pure rest

/-- `names = [t["title"] for t in pool]` (projects.py, line 96). -/
def titlesScan : List Rec → Except PyErr (List String)
  | [] => Except.ok []
  | t :: ts => do
    let v ← recItem t "title"
    let rest ← titlesScan ts
    pure (valToStr v :: rest)

/-- `_resolve_task_by_title` (projects.py, lines 85–104).  An empty pool
returns `None`; otherwise the titles are evaluated and the source calls
`process.extractOnce(...)` — rapidfuzz exports `extractOne`, not
`extractOnce`, so the attribute lookup raises `AttributeError`. -/
def resolveTaskByTitle (ws : Workspace) (_query : String) (projectId : Option String) :
    Except PyErr (Option Rec) := do
  let pool ← match projectId with
    | Option.none => pure ws.tasks
    | some pid => poolScan pid ws.tasks
  if pool.isEmpty then
    pure Option.none
  else do
    let _names ← titlesScan pool
    Except.error (PyErr.attributeError "module 'rapidfuzz.process' has no attribute 'extractOnce'")

/-- The scan `next((t for t in ws.tasks if t["id"] == task_query_or_id), None)`
(projects.py, line 220), returning the matching task with its index. -/
def findTaskIdx (x : String) (i : Nat) : List Rec → Except PyErr (Option (Nat × Rec))
  | [] => Except.ok Option.none
  | t :: ts => do
    let v ← recItem t "id"
    if v = Val.s x then pure (some (i, t)) else findTaskIdx x (i + 1) ts

/-- Persona-toned move summary (projects.py, lines 231–236). -/
def moveSummary (persona : Option String) (title oldStatus status : String) : String :=
  if persona = some "Intern" then
    "Zoom! Moved '" ++ title ++ "' from " ++ oldStatus ++ " -> " ++ status ++ ". Anything else I can tidy?"
  else if persona = some "Accountant" then
    "Moved: '" ++ title ++ "' " ++ oldStatus ++ " -> " ++ status ++ "."
  else
    "Moved '" ++ title ++ "' from " ++ oldStatus ++ " to " ++ status ++ "."

/-- `move_task` (projects.py, lines 187–238), in source statement order:
RBAC check → `_require_ws` → `_ensure_status` → exact-id scan → when no id
matches, `_resolve_task_by_title` is called but its result is discarded:
the `raise ValueError(... not found)` at line 225 is unconditional, so the
fuzzy branch can never update a task → on an id match the status field is
overwritten and the summary (which reads `task['title']`, a mandatory
lookup, after the mutation) is returned. -/
def moveTask (handle : Option Workspace) (userRole qOrId newStatus : String)
    (projectId : Option String) (persona : Option String) :
    Except PyErr (Rec × String) × Option Workspace :=
  if !hasPermission userRole "move_task" then
    (Except.error (PyErr.permissionError "You do not have permission to move tasks."), handle)
  else
    match handle with
    | Option.none => (Except.error (PyErr.runtimeError projectsNotAttachedMsg), Option.none)
    | some ws =>
      match ensureStatus newStatus with
      | Except.error e => (Except.error e, some ws)
      | Except.ok status =>
        match findTaskIdx qOrId 0 ws.tasks with
        | Except.error e => (Except.error e, some ws)
        | Except.ok Option.none =>
          (match resolveTaskByTitle ws qOrId projectId with
           | Except.error e => (Except.error e, some ws)
           | Except.ok _task =>
             (Except.error (PyErr.valueError ("Task '" ++ qOrId ++ "' not found.")), some ws))
        | Except.ok (some (i, t)) =>
          let oldStatus := dget t "status" (Val.s "todo")
          let t2 := dset t "status" (Val.s status)
          let ws2 := { ws with tasks := ws.tasks.set i t2 }
          match recItem t2 "title" with
          | Except.error e => (Except.error e, some ws2)
          | Except.ok title =>
            (Except.ok (t2, moveSummary persona (valToStr title) (valToStr oldStatus) status),
             some ws2)

-- ------------------------------------------------------------------
-- src/orchestrator/models.py and router.py
-- ------------------------------------------------------------------

/-- `str(e)` for the exceptions above (Python renders `KeyError` with the
key quoted, the others with their message). -/
def PyErr.pyStr : PyErr → String
  | PyErr.permissionError m => m
  | PyErr.valueError m => m
  | PyErr.runtimeError m => m
  | PyErr.nameError m => m
  | PyErr.attributeError m => m
  | PyErr.keyError k => "'" ++ k ++ "'"
  | PyErr.syntaxError m => m

/-- A normalized tool-call request as produced by `extract_tool_calls`
(llm_openai.py, lines 38–58): name, JSON-decoded arguments, call id. -/
structure ToolCallR where
  name : String
  arguments : Rec
  id : Option String
  deriving Repr, DecidableEq

/-- `ToolResult` (models.py, lines 18–23). -/
structure ToolResultR where
  name : String
  ok : Bool
  output : Option Val
  error : Option String
  deriving Repr, DecidableEq

/-- `AuditEntry` (models.py, lines 26–32). -/
structure AuditEntry where
  step : String
  ok : Bool
  detail : String
  toolCall : Option ToolCallR
  toolResult : Option ToolResultR
  deriving Repr, DecidableEq

/-- A conversation message: the role-tagged dicts built by `run`
(router.py, lines 204–208 and 232–237) plus the assistant message
appended from the model response. -/
inductive Msg where
  | system (content : String)
  | user (content : String)
  | assistant (content : Option String) (toolCalls : List ToolCallR)
  | tool (toolCallId : Option String) (name : String) (content : ToolResultR)
  deriving Repr, DecidableEq

/-- The eight tool names advertised to the model by `get_tools_and_specs`
(router.py, lines 39–162), in order. -/
def advertisedToolNames : List String :=
  ["find_client", "create_invoice", "chase_late_payers", "list_tasks",
   "create_task", "move_task", "record_expense", "weekly_summary"]

/-- The Python callables reachable from the dispatch chain of
`_execute_tool`: one tag per `module.function` that appears there. -/
inductive ToolFn where
  | crmFindClient
  | crmCreateInvoice
  | crmChaseLatePayers
  | projectsCreateTask
  | projectsMoveTask
  | opsRecordExpenses
  | opsWeeklySummary
  deriving Repr, DecidableEq

/-- The name → callable chain of `_execute_tool` (router.py, lines
170–187), exactly as written: the branch for creating invoices tests the
name `"creative_invoice"`, the `"list_tasks"` branch calls
`projects.create_task`, and the expense branch tests `"record_expenses"`;
any other name falls through to the unknown-tool result. -/
def dispatchTable (name : String) : Option ToolFn :=
  if name = "find_client" then some ToolFn.crmFindClient
  else if name = "creative_invoice" then some ToolFn.crmCreateInvoice
  else if name = "chase_late_payers" then some ToolFn.crmChaseLatePayers
  else if name = "list_tasks" then some ToolFn.projectsCreateTask
  else if name = "create_task" then some ToolFn.projectsCreateTask
  else if name = "move_task" then some ToolFn.projectsMoveTask
  else if name = "record_expenses" then some ToolFn.opsRecordExpenses
  else if name = "weekly_summary" then some ToolFn.opsWeeklySummary
  else Option.none

/-- `_execute_tool(name, args)` (router.py, lines 166–190).  `toolRun`
stands for invoking the resolved Python callable (which may raise any
exception); the `try/except Exception` converts a raise into a failed
`ToolResult` with `output=None` and `error=str(e)`, and an unresolved name
yields the unknown-tool failure — no exception escapes this boundary. -/
def executeTool (toolRun : ToolFn → Rec → Except PyErr Val)
    (name : String) (args : Rec) : ToolResultR :=
  match dispatchTable name with
  | Option.none => ⟨name, false, Option.none, some ("Unknown tool: " ++ name)⟩
  | some fn =>
    match toolRun fn args with
    | Except.ok out => ⟨name, true, some out, Option.none⟩
    | Except.error e => ⟨name, false, Option.none, some e.pyStr⟩

/-- The conversation and audit log threaded through the rounds of `run`. -/
structure LoopState where
  messages : List Msg
  audit : List AuditEntry
  deriving Repr, DecidableEq

/-- The "call issued" audit entry (router.py, line 227). -/
def issuedEntry (tc : ToolCallR) : AuditEntry :=
  ⟨"tool_call", true, "Calling " ++ tc.name, some tc, Option.none⟩

/-- The "call completed" audit entry (router.py, line 229). -/
def resultEntry (tc : ToolCallR) (r : ToolResultR) : AuditEntry :=
  ⟨"tool_result", r.ok, (if r.ok then "ok" else r.error.getD "error"), some tc, some r⟩

/-- One iteration of the `for tc_raw in tool_calls` body (router.py, lines
225–237): append the issued entry, execute through the registry, append
the completed entry, and push the serialized result back to the model as a
`"tool"` message tagged with the originating call id. -/
def processCall (toolRun : ToolFn → Rec → Except PyErr Val)
    (st : LoopState) (tc : ToolCallR) : LoopState :=
  let r := executeTool toolRun tc.name tc.arguments
  { messages := st.messages ++ [Msg.tool tc.id tc.name r]
  , audit := st.audit ++ [issuedEntry tc, resultEntry tc r] }

/-- Execute each requested call of a round, in the order received. -/
def processRound (toolRun : ToolFn → Rec → Except PyErr Val)
    (st : LoopState) (tcs : List ToolCallR) : LoopState :=
  List.foldl (processCall toolRun) st tcs

/-- `prompts.SYSTEM_TEMPLATE` with the `.get(persona, ...["PA"])` default
(router.py, line 202). -/
def systemTemplate (persona : String) : String :=
  if persona = "Accountant" then
    "You are a precise, terse accountant. Output minimal wording and correct currency formatting. Prefer bullet points or one-liners. Use tools as needed."
  else if persona = "Intern" then
    "You are an enthusiastic admin intern. Be warm and supportive but stay useful and accurate. Ask at most ONE follow-up if needed. Use tools liberally."
  else
    "You are a helpful, concise executive assistant. Prefer actions over long explanations. If critical info is missing, ask ONE targeted follow-up. Use the provided tools when appropriate. Keep responses short."

/-- What a model stub returns for one call: the first choice's message
content and its normalized tool calls.  The `Bool` argument of a stub is
whether tool specs were offered (`tools=tool_specs` vs `tools=None`). -/
structure Choice where
  content : Option String
  toolCalls : List ToolCallR
  deriving Repr, DecidableEq

/-- `OrchestratorResult` (models.py, lines 35–39). -/
structure OrchResult where
  summary : String
  messages : List Msg
  audit : List AuditEntry
  deriving Repr, DecidableEq

/-- The integer-valued names bound in `run`'s scope when the loop header
`for round_idx in range(max_tool_rounds)` (router.py, line 213) is
evaluated: the parameter list of `run` (line 194) binds
`max_tootl_rounds`, and neither the module body of router.py nor the
builtins define `max_tool_rounds`. -/
def runScopeInts : List (String × Int) := [("max_tootl_rounds", 3)]

/-- Python name resolution over the bindings above. -/
def lookupLocal (env : List (String × Int)) (x : String) : Option Int :=
  Option.map (fun p => p.2) (List.find? (fun p => p.1 = x) env)

/-- `choice.message.content or "(no content)"`. -/
def contentOrDefault : Option String → String
  | some c => if c = "" then "(no content)" else c
  | Option.none => "(no content)"

/-- The round loop of `run` (router.py, lines 213–243), with the remaining
round budget as fuel.  A content-only response ends the run with the
model's text; tool calls are executed and fed back; when the budget is
exhausted the safety stop calls the model once with no tools and then
evaluates `resp.choice[0]` (line 240) — the OpenAI response object exposes
`choices`, not `choice`, so this raises `AttributeError`. -/
def orchLoop (stub : List Msg → Bool → Choice) (toolRun : ToolFn → Rec → Except PyErr Val) :
    Nat → Nat → LoopState → Except PyErr OrchResult
  | 0, _roundIdx, st =>
    let _resp := stub st.messages false
    Except.error (PyErr.attributeError "'ChatCompletion' object has no attribute 'choice'")
  | n + 1, roundIdx, st =>
    let choice := stub st.messages true
    if choice.toolCalls.isEmpty then
      Except.ok
        { summary := contentOrDefault choice.content
        , messages := st.messages ++ [Msg.assistant choice.content choice.toolCalls]
        , audit := st.audit ++
            [⟨"model_round_" ++ toString (roundIdx + 1), true, "No tool call: returning text.",
              Option.none, Option.none⟩] }
    else
      orchLoop stub toolRun n (roundIdx + 1) (processRound toolRun st choice.toolCalls)

/-- `run(user_text, ...)` (router.py, lines 194–243): persona/currency
defaults, the seeded conversation, then the round loop — whose header
reads the name `max_tool_rounds` while the parameter is spelled
`max_tootl_rounds`, so the lookup fails and every call raises `NameError`
before the first model call. -/
def runOrch (stub : List Msg → Bool → Choice) (toolRun : ToolFn → Rec → Except PyErr Val)
    (userText : String) (persona currency : Option String) : Except PyErr OrchResult :=
  let persona := match persona with
    | some p => if p = "" then "PA" else p
    | Option.none => "PA"
  let currency := match currency with
    | some c => if c = "" then "USD" else c
    | Option.none => "USD"
  let messages : List Msg :=
    [Msg.system (systemTemplate persona),
     Msg.system ("Default currency: " ++ currency ++ ". Keep answers concise."),
     Msg.user (pyStrip userText)]
  match lookupLocal runScopeInts "max_tool_rounds" with
  | Option.none => Except.error (PyErr.nameError "name 'max_tool_rounds' is not defined")
  | some n => orchLoop stub toolRun n.toNat 0 ⟨messages, []⟩

-- ------------------------------------------------------------------
-- Concrete fixtures used by the theorems
-- ------------------------------------------------------------------

/-- A client record in the shape the workspace seed uses. -/
def acmeClient : Rec :=
  [("id", Val.s "c1"), ("name", Val.s "Acme Ltd"),
   ("currency", Val.s "USD"), ("default_vat", Val.q (1 / 5))]

/-- A workspace holding just that client. -/
def wsClient : Workspace := { emptyWs with clients := [acmeClient] }

/-- A whole-money line item: 1 × 100. -/
def liWhole : Rec :=
  [("description", Val.s "Retainer"), ("qty", Val.i 1), ("unit_price", Val.q 100)]

/-- A line item whose exact total, 1.004, has more than 2 decimals. -/
def liFraction : Rec :=
  [("description", Val.s "Metered work"), ("qty", Val.i 1),
   ("unit_price", Val.q (1004 / 1000))]

/-- An existing invoice numbered `INV-2025-081`, as in the sample data. -/
def inv081 : Rec :=
  [("id", Val.s "inv_2025_081"), ("client_id", Val.s "c1"),
   ("number", Val.s "INV-2025-081"), ("date", Val.d 2025 1 2),
   ("due_days", Val.i 14), ("currency", Val.s "USD"), ("status", Val.s "draft")]

/-- Client plus the `INV-2025-081` invoice. -/
def wsNumbered : Workspace := { emptyWs with clients := [acmeClient], invoices := [inv081] }

/-- A draft invoice dated 2025-01-01 with `due_days = 14` (the claim's
worked example). -/
def invDue14 : Rec :=
  [("id", Val.s "inv_a"), ("client_id", Val.s "c1"), ("number", Val.s "INV-2025-001"),
   ("date", Val.d 2025 1 1), ("due_days", Val.i 14), ("status", Val.s "draft")]

/-- A draft invoice dated 2025-01-01 with `due_days = 30`: not yet due on
2025-01-20 by its own terms. -/
def invDue30 : Rec :=
  [("id", Val.s "inv_b"), ("client_id", Val.s "c1"), ("number", Val.s "INV-2025-002"),
   ("date", Val.d 2025 1 1), ("due_days", Val.i 30), ("status", Val.s "draft")]

/-- A long-past invoice already paid. -/
def invPaid : Rec :=
  [("id", Val.s "inv_c"), ("client_id", Val.s "c1"), ("number", Val.s "INV-2024-001"),
   ("date", Val.d 2024 1 1), ("due_days", Val.i 14), ("status", Val.s "paid")]

/-- Workspaces holding one invoice each. -/
def wsDue14 : Workspace := { emptyWs with invoices := [invDue14] }

def wsDue30 : Workspace := { emptyWs with invoices := [invDue30] }

def wsPaid : Workspace := { emptyWs with invoices := [invPaid] }

/-- A task `t1` titled "hire designer" in project `p1`, status todo. -/
def taskT1 : Rec :=
  [("id", Val.s "t1"), ("project_id", Val.s "p1"),
   ("title", Val.s "hire designer"), ("status", Val.s "todo")]

/-- The same task after `move_task` sets its status to doing. -/
def taskT1doing : Rec :=
  [("id", Val.s "t1"), ("project_id", Val.s "p1"),
   ("title", Val.s "hire designer"), ("status", Val.s "doing")]

/-- A workspace holding just that task. -/
def wsTasks : Workspace := { emptyWs with tasks := [taskT1] }

/-- A stub model that always answers with plain text and no tool calls. -/
def textStub : List Msg → Bool → Choice := fun _ _ => ⟨some "all done", []⟩

/-- A tool runner that always raises (`ValueError("boom")`). -/
def boomRun : ToolFn → Rec → Except PyErr Val := fun _ _ =>
  Except.error (PyErr.valueError "boom")

/-- Whether an exception is one of the claim's three tool-failure kinds:
`Forbidden` is `PermissionError`, `NotFound` and `InvalidArgument` are both
raised as `ValueError` in this codebase. -/
def PyErr.isClaimKind : PyErr → Bool
  | PyErr.permissionError _ => true
  | PyErr.valueError _ => true
  | _ => false

-- ------------------------------------------------------------------
-- Helper lemmas
-- ------------------------------------------------------------------

/-- A mandatory dict lookup can only fail with `KeyError` on its key. -/
theorem recItem_error {r : Rec} {k : String} {e : PyErr}
    (h : recItem r k = Except.error e) : e = PyErr.keyError k := by
  unfold recItem at h
  split at h
  · exact absurd h (by simp)
  · simpa using h.symm

/-- Every error path of `createInvoice` leaves the workspace handle
unchanged: in particular the `PermissionError` and not-found `ValueError`
are raised before the append (and the `03.d` crash prevents the append
entirely). -/
theorem createInvoice_error_preserves (handle : Option Workspace)
    (role cid ccy : String) (vr : Option ℚ) (li : List Rec) (dd : Int)
    (notes : Option String) (idate : Option Date) (today : Date)
    (e : PyErr) (ws2 : Option Workspace)
    (h : createInvoice handle role cid ccy vr li dd notes idate today = (Except.error e, ws2)) :
    ws2 = handle := by
  unfold createInvoice at h
  split at h
  · simp only [Prod.mk.injEq] at h
    exact h.2.symm
  · split at h
    · simp only [Prod.mk.injEq] at h
      exact h.2.symm
    · split at h
      · simp only [Prod.mk.injEq] at h
        exact h.2.symm
      · simp only [formatSpec03dotd, Prod.mk.injEq] at h
        exact h.2.symm

/-- Every error path of `recordExpenses` leaves the workspace handle
unchanged: permission, currency and positivity failures precede the
append (and the `NameError` prevents the append entirely). -/
theorem recordExpenses_error_preserves (handle : Option Workspace)
    (role : String) (amt : ℚ) (ccy desc : String) (di : Option Date)
    (cat pid cid : Option String) (pers : Option String) (today : Date)
    (e : PyErr) (ws2 : Option Workspace)
    (h : recordExpenses handle role amt ccy desc di cat pid cid pers today = (Except.error e, ws2)) :
    ws2 = handle := by
  unfold recordExpenses at h
  split at h
  · simp only [Prod.mk.injEq] at h
    exact h.2.symm
  · split at h
    · simp only [Prod.mk.injEq] at h
      exact h.2.symm
    · split at h
      · simp only [Prod.mk.injEq] at h
        exact h.2.symm
      · split at h
        · simp only [Prod.mk.injEq] at h
          exact h.2.symm
        · simp only [nextExpenseIdCall, Prod.mk.injEq] at h
          exact h.2.symm

/-- A `move_task` failure of one of the claim's kinds (`PermissionError`
or `ValueError`) leaves the workspace handle unchanged; the only error a
`move_task` call can raise after mutating is the `KeyError` from the
summary's `task['title']` lookup, which is not one of those kinds. -/
theorem moveTask_error_preserves (handle : Option Workspace)
    (role q ns : String) (pid pers : Option String)
    (e : PyErr) (ws2 : Option Workspace)
    (h : moveTask handle role q ns pid pers = (Except.error e, ws2))
    (hk : e.isClaimKind = true) : ws2 = handle := by
  unfold moveTask at h
  split at h
  · simp only [Prod.mk.injEq] at h
    exact h.2.symm
  · split at h
    · simp only [Prod.mk.injEq] at h
      exact h.2.symm
    · split at h
      · simp only [Prod.mk.injEq] at h
        exact h.2.symm
      · split at h
        · simp only [Prod.mk.injEq] at h
          exact h.2.symm
        · split at h
          · simp only [Prod.mk.injEq] at h
            exact h.2.symm
          · simp only [Prod.mk.injEq] at h
            exact h.2.symm
        · rename_i i t heq2
          dsimp only at h
          split at h
          · rename_i e2 heq3
            simp only [Prod.mk.injEq, Except.error.injEq] at h
            have hke := recItem_error heq3
            rw [← h.1, hke] at hk
            simp [PyErr.isClaimKind] at hk
          · simp at h

/-- The fuzzy resolver returns `None` over an empty task pool without
touching rapidfuzz. -/
theorem resolveTaskByTitle_empty (ws : Workspace) (q : String) (pid : Option String)
    (hws : ws.tasks = []) : resolveTaskByTitle ws q pid = Except.ok Option.none := by
  unfold resolveTaskByTitle
  cases pid with
  | none => rw [hws]; rfl
  | some p => rw [hws]; rfl

/-- `move_task` with no id match and no fuzzy candidate raises the
not-found `ValueError` and returns the workspace unchanged. -/
theorem moveTask_empty_notfound (ws : Workspace) (role q ns s : String)
    (pid pers : Option String)
    (hws : ws.tasks = [])
    (hperm : hasPermission role "move_task" = true)
    (hst : ensureStatus ns = Except.ok s) :
    moveTask (some ws) role q ns pid pers =
      (Except.error (PyErr.valueError ("Task '" ++ q ++ "' not found.")), some ws) := by
  have hres := resolveTaskByTitle_empty ws q pid hws
  simp only [moveTask, hperm, hst, hws, findTaskIdx, hres, Bool.not_true, Bool.false_eq_true,
    if_false, ite_false]

-- ------------------------------------------------------------------
-- C10 — the permission gate
-- ------------------------------------------------------------------

/-- C10: the permission gate is a pure fail-closed lookup — a viewer may
not create invoices, an owner may, and any action absent from
`ACTION_MATRIX` (such as "nonexistent_action") is denied for every role;
`hasPermission` is total, so no error is raised. -/
theorem permission_gate_fail_closed :
    hasPermission "viewer" "create_invoice" = false
    ∧ hasPermission "owner" "create_invoice" = true
    ∧ (∀ role action, actionMatrix action = Option.none → hasPermission role action = false)
    ∧ (∀ role, hasPermission role "nonexistent_action" = false) := by
  refine ⟨rfl, rfl, ?_, fun role => rfl⟩
  intro role action h
  simp [hasPermission, h]

/-- Witness: the gate evaluated at the concrete inputs of the claim. -/
theorem permission_gate_fail_closed_witness :
    actionMatrix "nonexistent_action" = Option.none
    ∧ hasPermission "viewer" "nonexistent_action" = false := by
  exact ⟨rfl, (permission_gate_fail_closed.2.2.1) "viewer" "nonexistent_action" rfl⟩

-- ------------------------------------------------------------------
-- C1 — the orchestration loop's round budget
-- ------------------------------------------------------------------

/-- C1 (code bug): the claim says a run with the default budget performs 3
tool-bearing rounds, then one forced no-tools call, returning its text,
with at most 4 model calls.  In the source, `run`'s parameter is spelled
`max_tootl_rounds` while the loop header reads `max_tool_rounds`
(router.py, lines 194 and 213), so every call — for every model stub and
every tool runner — raises `NameError` before the first model call and no
rounds are performed at all. -/
theorem run_raises_nameerror (stub : List Msg → Bool → Choice)
    (toolRun : ToolFn → Rec → Except PyErr Val) (userText : String)
    (persona currency : Option String) :
    runOrch stub toolRun userText persona currency =
      Except.error (PyErr.nameError "name 'max_tool_rounds' is not defined") := by
  unfold runOrch
  rfl

-- ------------------------------------------------------------------
-- C9 — tool advertisement vs dispatch table
-- ------------------------------------------------------------------

/-- C9 (code bug): the advertised tool names and the dispatch chain are
*not* in sync.  "create_invoice" and "record_expense" are advertised but
unhandled (the chain tests the misspelled "creative_invoice" and
"record_expenses"), so dispatching them yields the unknown-tool failure;
and "list_tasks" is routed to `projects.create_task`, a different tool's
function. -/
theorem registry_out_of_sync :
    ("create_invoice" ∈ advertisedToolNames ∧ dispatchTable "create_invoice" = Option.none)
    ∧ ("record_expense" ∈ advertisedToolNames ∧ dispatchTable "record_expense" = Option.none)
    ∧ ("list_tasks" ∈ advertisedToolNames ∧ dispatchTable "list_tasks" = some ToolFn.projectsCreateTask)
    ∧ dispatchTable "creative_invoice" = some ToolFn.crmCreateInvoice
    ∧ (∀ toolRun args, executeTool toolRun "create_invoice" args =
        ⟨"create_invoice", false, Option.none, some "Unknown tool: create_invoice"⟩)
    ∧ (∀ toolRun args, executeTool toolRun "record_expense" args =
        ⟨"record_expense", false, Option.none, some "Unknown tool: record_expense"⟩) := by
  refine ⟨⟨by decide, rfl⟩, ⟨by decide, rfl⟩, ⟨by decide, rfl⟩, rfl, ?_, ?_⟩
  · intro toolRun args; rfl
  · intro toolRun args; rfl

-- ------------------------------------------------------------------
-- C2 — failures are contained at the dispatch boundary
-- ------------------------------------------------------------------

/-- C2: an unknown tool name yields a `ToolResult` with `ok=false` naming
the unknown tool; any exception raised by the invoked tool is caught at
the dispatch boundary and becomes a `ToolResult` with `ok=false`, null
output and the error string; and the loop body then appends the issued /
completed audit entries and feeds the serialized result back to the model
as a `"tool"` message — `processCall` is total, so the round never aborts
on a tool failure. -/
theorem dispatch_failures_contained
    (toolRun : ToolFn → Rec → Except PyErr Val) (name : String) (args : Rec)
    (st : LoopState) (tc : ToolCallR) :
    (dispatchTable name = Option.none →
      executeTool toolRun name args =
        ⟨name, false, Option.none, some ("Unknown tool: " ++ name)⟩)
    ∧ (∀ fn e, dispatchTable name = some fn → toolRun fn args = Except.error e →
      executeTool toolRun name args = ⟨name, false, Option.none, some e.pyStr⟩)
    ∧ (processCall toolRun st tc).audit =
        st.audit ++ [issuedEntry tc, resultEntry tc (executeTool toolRun tc.name tc.arguments)]
    ∧ (processCall toolRun st tc).messages =
        st.messages ++ [Msg.tool tc.id tc.name (executeTool toolRun tc.name tc.arguments)] := by
  refine ⟨?_, ?_, rfl, rfl⟩
  · intro h
    simp [executeTool, h]
  · intro fn e hfn he
    simp [executeTool, hfn, he]

/-- Witness: the theorem applied to the unknown name "bogus_tool" and to a
registered name whose tool raises `ValueError("boom")`. -/
theorem dispatch_failures_contained_witness :
    executeTool boomRun "bogus_tool" [] =
      ⟨"bogus_tool", false, Option.none, some "Unknown tool: bogus_tool"⟩
    ∧ executeTool boomRun "move_task" [] =
      ⟨"move_task", false, Option.none, some "boom"⟩ := by
  exact ⟨(dispatch_failures_contained boomRun "bogus_tool" [] ⟨[], []⟩
            ⟨"bogus_tool", [], Option.none⟩).1 rfl,
         (dispatch_failures_contained boomRun "move_task" [] ⟨[], []⟩
            ⟨"move_task", [], Option.none⟩).2.1
           ToolFn.projectsMoveTask (PyErr.valueError "boom") rfl rfl⟩

-- ------------------------------------------------------------------
-- C4 — invoice totals
-- ------------------------------------------------------------------

/-- C4 (code bug): the claim says every created invoice stores
`subtotal` = the exact sum of qty × unit_price, `vat = round(subtotal ×
vat_rate, 2)` and `total = round(subtotal + vat, 2)`.  Two divergences:
(a) `create_invoice` never stores an invoice at all — the `inv_id`
f-string's invalid `03.d` spec (crm.py, line 266) raises `ValueError`
before the append, leaving the workspace unchanged even on a fully valid
call; (b) `_compute_totals` stores `round(subtotal, 2)`, not the exact
sum: for the single line item 1 × 1.004 at vat_rate 0.2 the exact sum is
1.004 but the stored subtotal is 1.00 (`vat` and `total` *are* computed
from the unrounded sum, as the claim states). -/
theorem create_invoice_crashes_and_rounds_subtotal :
    createInvoice (some wsClient) "owner" "c1" "USD" (some (1 / 5)) [liFraction] 14
        Option.none (some ⟨2025, 1, 15⟩) ⟨2025, 1, 15⟩ =
      (Except.error (PyErr.valueError "Format specifier missing precision"), some wsClient)
    ∧ (List.map
        (fun li => toQ (dget li "qty" (Val.i 0)) * toQ (dget li "unit_price" (Val.q 0)))
        [liFraction]).sum = 1004 / 1000
    ∧ computeTotals [liFraction] (1 / 5) = ⟨1, 1 / 5, 6 / 5⟩
    ∧ (computeTotals [liFraction] (1 / 5)).subtotal ≠ 1004 / 1000
    ∧ (computeTotals [liFraction] (1 / 5)).vat = pyRound2 ((1004 / 1000) * (1 / 5))
    ∧ (computeTotals [liFraction] (1 / 5)).total =
        pyRound2 (1004 / 1000 + pyRound2 ((1004 / 1000) * (1 / 5))) := by
  refine ⟨rfl, ?_, ?_, ?_, ?_, ?_⟩
  · simp [liFraction, dget, toQ, List.find?]
  · simp [computeTotals, liFraction, dget, toQ, List.find?]
    norm_num [pyRound2]
  · simp [computeTotals, liFraction, dget, toQ, List.find?]
    norm_num [pyRound2]
  · simp [computeTotals, liFraction, dget, toQ, List.find?]
  · simp [computeTotals, liFraction, dget, toQ, List.find?]

-- ------------------------------------------------------------------
-- C5 — invoice numbering
-- ------------------------------------------------------------------

/-- C5 (code bug): the claim says the next seq is 81 with no prior numbers
and otherwise max-numeric-suffix + 1, and that two successive creations
succeed with suffixes differing by 1.  The empty-case 81 holds, but
`_next_invoice_suffix` first strips the dashes, so for `"INV-2025-081"`
the trailing integer it parses is 2025081 and the next suffix is 2025082,
not 82 — contradicting its own docstring example ("e.g., 'INV-2025-082'");
and no invoice creation can succeed at all, since `create_invoice` raises
`ValueError` from the invalid `03.d` format spec on every call. -/
theorem invoice_numbering_diverges :
    nextInvoiceSuffix [] = 81
    ∧ nextInvoiceSuffix ["INV-2025-081"] = 2025082
    ∧ nextInvoiceSuffix ["INV-2025-081"] ≠ 81 + 1
    ∧ formatInvoiceNumber ⟨2025, 1, 15⟩ (nextInvoiceSuffix ["INV-2025-081"]) =
        "INV-2025-2025082"
    ∧ (createInvoice (some wsNumbered) "owner" "c1" "USD" (some 0) [liWhole] 14
        Option.none Option.none ⟨2025, 1, 15⟩).1 =
        Except.error (PyErr.valueError "Format specifier missing precision") := by
  refine ⟨rfl, by decide, by decide, by decide, rfl⟩

-- ------------------------------------------------------------------
-- C6 — overdue classification
-- ------------------------------------------------------------------

/-- C6 (code bug): the claim's worked examples hold — an invoice dated
2025-01-01 with `due_days = 14`, status draft, is overdue on 2025-01-20,
not overdue on 2025-01-10, and a paid invoice is never overdue — but the
claim also says the selector uses *each invoice's own* `due_days`.  It
does not: `get_overdue_invoices` reads the misspelled key `"due_dats"`
(selectors.py, line 41), so the default 14 is always used.  An invoice
dated 2025-01-01 with `due_days = 30` is not overdue on 2025-01-20 by its
own terms (Jan 1 + 30 days ≥ Jan 20), yet the code classifies it as
overdue. -/
theorem overdue_ignores_own_due_days :
    getOverdueInvoices wsDue14 ⟨2025, 1, 20⟩ = Except.ok [invDue14]
    ∧ getOverdueInvoices wsDue14 ⟨2025, 1, 10⟩ = Except.ok []
    ∧ getOverdueInvoices wsPaid ⟨2025, 1, 20⟩ = Except.ok []
    ∧ dget invDue30 "due_days" (Val.i 14) = Val.i 30
    ∧ ¬ ((Date.mk 2025 1 1).toOrd + 30 < (Date.mk 2025 1 20).toOrd)
    ∧ getOverdueInvoices wsDue30 ⟨2025, 1, 20⟩ = Except.ok [invDue30] := by
  refine ⟨by decide, by decide, by decide, by decide, by decide, by decide⟩

-- ------------------------------------------------------------------
-- C7 — move_task resolution
-- ------------------------------------------------------------------

/-- C7 (code bug): exact-id resolution works as claimed — `move_task` on
"t1" overwrites the status and reports before/after — and a no-match call
fails with the not-found error leaving the workspace unchanged.  But the
fuzzy-title fallback can never update a task: `move_task` discards the
resolver's result and raises unconditionally (projects.py, line 225), and
the resolver itself calls the nonexistent `process.extractOnce`, so a
title query over a non-empty pool raises `AttributeError` instead of
updating the matched task. -/
theorem move_task_fuzzy_path_broken :
    moveTask (some wsTasks) "owner" "hire designer" "doing" Option.none Option.none =
      (Except.error (PyErr.attributeError
        "module 'rapidfuzz.process' has no attribute 'extractOnce'"), some wsTasks)
    ∧ moveTask (some wsTasks) "owner" "t1" "doing" Option.none Option.none =
      (Except.ok (taskT1doing, "Moved 'hire designer' from todo to doing."),
       some { emptyWs with tasks := [taskT1doing] })
    ∧ moveTask (some emptyWs) "owner" "ghost task" "doing" Option.none Option.none =
      (Except.error (PyErr.valueError "Task 'ghost task' not found."), some emptyWs) := by
  refine ⟨by decide, by decide, by decide⟩

-- ------------------------------------------------------------------
-- C3 — the broken attach_workspace functions
-- ------------------------------------------------------------------

/-- C3 (code bug): the claim's description of the attach bodies matches
the source text — `crm.attach_workspace` assigns the module handle to
itself (`_WS = _WS`) and `ops.attach_workspace` merely evaluates it
(bare `_WS`), so the text discards the passed workspace for every input
and every prior handle — but the claimed consequence, that every
subsequent CRM/ops tool call raises the "Workspace not attached"
`RuntimeError`, can never occur: both modules fail to *import* with a
module-fatal `SyntaxError` (crm.py line 41, ops.py line 202), so
`attach_workspace` and the CRM/ops tools never exist at runtime and no
such call can be made at all. -/
theorem crm_ops_import_fails_attach_discards :
    importCrm = Except.error
      (PyErr.syntaxError "unterminated string literal (detected at line 41)")
    ∧ importOps = Except.error (PyErr.syntaxError "invalid syntax (line 202)")
    ∧ (∀ (ws : Workspace) (handle : Option Workspace),
        crmAttachWorkspace ws handle = handle)
    ∧ (∀ (ws : Workspace) (handle : Option Workspace),
        opsAttachWorkspace ws handle = handle) :=
  ⟨rfl, rfl, fun _ _ => rfl, fun _ _ => rfl⟩

-- ------------------------------------------------------------------
-- C8 — atomicity of the mutating tools
-- ------------------------------------------------------------------

/-- C8: the mutating tools are atomic on the claim's failure kinds — any
`Forbidden` (`PermissionError`), `NotFound` or `InvalidArgument` (both
`ValueError` here) raised by `move_task`, `create_invoice` or
`record_expenses` is raised before any mutation, leaving the workspace
handle exactly as it was; and `move_task` on a nonexistent id/title with
no fuzzy candidate fails with the not-found error and an unchanged task
list. -/
theorem mutating_tools_atomic (handle : Option Workspace) (ws : Workspace)
    (role q ns ccy cid desc : String) (pid pers cat cl : Option String)
    (vr : Option ℚ) (amt : ℚ) (li : List Rec) (dd : Int)
    (notes : Option String) (idate di : Option Date) (today : Date) (s : String) :
    (∀ e ws2, moveTask handle role q ns pid pers = (Except.error e, ws2) →
        e.isClaimKind = true → ws2 = handle)
    ∧ (∀ e ws2, createInvoice handle role cid ccy vr li dd notes idate today =
        (Except.error e, ws2) → ws2 = handle)
    ∧ (∀ e ws2, recordExpenses handle role amt ccy desc di cat pid cl pers today =
        (Except.error e, ws2) → ws2 = handle)
    ∧ (ws.tasks = [] → hasPermission role "move_task" = true → ensureStatus ns = Except.ok s →
        moveTask (some ws) role q ns pid pers =
          (Except.error (PyErr.valueError ("Task '" ++ q ++ "' not found.")), some ws)) := by
  refine ⟨?_, ?_, ?_, ?_⟩
  · intro e ws2 h hk
    exact moveTask_error_preserves handle role q ns pid pers e ws2 h hk
  · intro e ws2 h
    exact createInvoice_error_preserves handle role cid ccy vr li dd notes idate today e ws2 h
  · intro e ws2 h
    exact recordExpenses_error_preserves handle role amt ccy desc di cat pid cl pers today e ws2 h
  · intro h1 h2 h3
    exact moveTask_empty_notfound ws role q ns s pid pers h1 h2 h3

/-- Witness: the theorem applied at concrete rejected calls — a viewer's
`move_task` and `create_invoice` (Forbidden), a `record_expenses` with an
unsupported currency (InvalidArgument), and a `move_task` on an empty
workspace (NotFound) — each leaving the handle unchanged. -/
theorem mutating_tools_atomic_witness :
    (moveTask (some wsTasks) "viewer" "t1" "doing" Option.none Option.none =
      (Except.error (PyErr.permissionError "You do not have permission to move tasks."),
       some wsTasks)
     ∧ (some wsTasks : Option Workspace) = some wsTasks)
    ∧ (createInvoice (some emptyWs) "viewer" "c1" "USD" Option.none [] 14 Option.none
        Option.none ⟨2025, 1, 15⟩ =
        (Except.error (PyErr.permissionError "You do not have permission to create invoices."),
         some emptyWs)
     ∧ (some emptyWs : Option Workspace) = some emptyWs)
    ∧ (recordExpenses (some emptyWs) "owner" 10 "JPY" "x" Option.none Option.none
        Option.none Option.none Option.none ⟨2025, 1, 15⟩ =
        (Except.error (PyErr.valueError
          "Unsupported currecnt 'JPY'. Use one of ['EUR', 'GBP', 'USD']."), some emptyWs)
     ∧ (some emptyWs : Option Workspace) = some emptyWs)
    ∧ moveTask (some emptyWs) "owner" "ghost" "doing" Option.none Option.none =
        (Except.error (PyErr.valueError ("Task '" ++ "ghost" ++ "' not found.")), some emptyWs) := by
  refine ⟨⟨by decide, ?_⟩, ⟨by decide, ?_⟩, ⟨by decide, ?_⟩, ?_⟩
  · exact (mutating_tools_atomic (some wsTasks) emptyWs "viewer" "t1" "doing" "USD" "c1" "x"
      Option.none Option.none Option.none Option.none Option.none 10 [] 14 Option.none
      Option.none Option.none ⟨2025, 1, 15⟩ "doing").1
      (PyErr.permissionError "You do not have permission to move tasks.") (some wsTasks)
      (by decide) (by decide)
  · exact (mutating_tools_atomic (some emptyWs) emptyWs "viewer" "t1" "doing" "USD" "c1" "x"
      Option.none Option.none Option.none Option.none Option.none 10 [] 14 Option.none
      Option.none Option.none ⟨2025, 1, 15⟩ "doing").2.1
      (PyErr.permissionError "You do not have permission to create invoices.") (some emptyWs)
      (by decide)
  · exact (mutating_tools_atomic (some emptyWs) emptyWs "owner" "t1" "doing" "JPY" "c1" "x"
      Option.none Option.none Option.none Option.none Option.none 10 [] 14 Option.none
      Option.none Option.none ⟨2025, 1, 15⟩ "doing").2.2.1
      (PyErr.valueError "Unsupported currecnt 'JPY'. Use one of ['EUR', 'GBP', 'USD'].")
      (some emptyWs) (by decide)
  · exact (mutating_tools_atomic (some emptyWs) emptyWs "owner" "ghost" "doing" "USD" "c1" "x"
      Option.none Option.none Option.none Option.none Option.none 10 [] 14 Option.none
      Option.none Option.none ⟨2025, 1, 15⟩ "doing").2.2.2 rfl (by decide) (by decide)

end BizAssist
